import Mathlib

/-!
Verification of the MySQL query plugin (src/tools/mysql-query.py).

The development shallowly embeds the tool's core logic:
- the process-wide engine cache keyed by host:port:user:database
  (ENGINE_CACHE, MySQLQueryTool._get_connection_key, _get_engine);
- the paginated query executor with its two counting strategies
  (MySQLQueryTool._invoke);
- the row-normalization fallback chain and the JSON-safety coercion.

Python driver values are modelled by the inductive SqlValue; values that are
not JSON primitives are modelled by the vOther constructor carrying the string
that Python's str() would produce for them.  Parameters that may arrive with
an arbitrary runtime type (port, page, pagesize) are modelled by PyScalar,
with pyToInt playing the role of Python's int() conversion (failure = the
ValueError or TypeError branch).
-/

set_option autoImplicit false

/-- A value in a result row, as delivered by the driver.  vStr, vInt, vFloat,
vBool and vNull are the JSON primitives the code passes through unchanged
(isinstance(value, (str, int, float, bool)) or value is None); every other
driver object is modelled by vOther carrying its Python str() rendering. -/
inductive SqlValue where
  | vStr (s : String)
  | vInt (n : Int)
  | vFloat (q : ℚ)
  | vBool (b : Bool)
  | vNull
  | vOther (rep : String)
deriving DecidableEq, Repr

/-- The values the coercion loop leaves untouched: value is None or
isinstance(value, (str, int, float, bool)). -/
def isJsonPrimitive : SqlValue → Bool
  | .vStr _ => true
  | .vInt _ => true
  | .vFloat _ => true
  | .vBool _ => true
  | .vNull => true
  | .vOther _ => false

/-- Python str() of a driver value (only the vOther case is ever produced by
the coercion loop; the primitive cases are included for totality). -/
def valueRep : SqlValue → String
  | .vStr s => s
  | .vInt n => toString n
  | .vFloat q => toString q
  | .vBool b => if b then "True" else "False"
  | .vNull => "None"
  | .vOther rep => rep

/-- One iteration of the coercion loop at lines 218-220:
if value is not None and not isinstance(value, (str, int, float, bool)):
row_dict[key] = str(value). -/
def coerceValue : SqlValue → SqlValue
  | .vOther rep => .vStr rep
  | v => v

/-- A driver row as seen through the accesses _invoke performs on it:
row._mapping when present, row[column] lookups, row[idx] positional lookups
and list(row).  accessRaises models a row object whose conversion raises out
of methods 1-2 entirely, sending the code to the method-3 fallback. -/
structure DriverRow where
  mappingView : Option (List (String × SqlValue))
  byName : String → Option SqlValue
  positional : List SqlValue
  accessRaises : Bool

/-- Python dict insertion: overwrite an existing key in place, else append. -/
def dictInsert (d : List (String × SqlValue)) (k : String) (v : SqlValue) :
    List (String × SqlValue) :=
  if d.any (fun p => p.1 = k) then
    d.map (fun p => if p.1 = k then (k, v) else p)
  else
    d ++ [(k, v)]

/-- Building a dict from an iteration of key-value pairs. -/
def dictOfPairs (ps : List (String × SqlValue)) : List (String × SqlValue) :=
  ps.foldl (fun d p => dictInsert d p.1 p.2) []

/-- Method 2's per-column value (lines 203-210): try row[column], on failure
try row[idx], on failure None. -/
def method2Value (row : DriverRow) (idx : Nat) (column : String) : SqlValue :=
  match row.byName column with
  | some v => v
  | none =>
    match row.positional.get? idx with
    | some v => v
    | none => SqlValue.vNull

/-- The row-to-dict conversion of lines 196-215: method 1 copies row._mapping
when present, method 2 builds the dict per column by name then by index, and
method 3 (reached when the row object itself raises) zips list(row) against
the column names, keeping only indices below the column count. -/
def buildRowDict (columnNames : List String) (row : DriverRow) :
    List (String × SqlValue) :=
  if row.accessRaises then
    dictOfPairs (columnNames.zip row.positional)
  else
    match row.mappingView with
    | some m => dictOfPairs m
    | none =>
      columnNames.enum.foldl
        (fun d p => dictInsert d p.2 (method2Value row p.1 p.2)) []

/-- Row normalization: build the dict, then coerce every value to a JSON
primitive (lines 196-220). -/
def normalizeRow (columnNames : List String) (row : DriverRow) :
    List (String × SqlValue) :=
  (buildRowDict columnNames row).map (fun p => (p.1, coerceValue p.2))

theorem coerceValue_eq_ite (v : SqlValue) :
    coerceValue v = if isJsonPrimitive v then v else SqlValue.vStr (valueRep v) := by
  cases v <;> rfl

theorem isJsonPrimitive_coerceValue (v : SqlValue) :
    isJsonPrimitive (coerceValue v) = true := by
  cases v <;> rfl

/-- C7: every value of the built record survives normalization unchanged when
it is a JSON primitive and is replaced by its string representation otherwise,
so every value of the normalized record is a JSON-safe scalar. -/
theorem claim_C7 (cols : List String) (row : DriverRow) :
    (∀ (i : Nat) (kv : String × SqlValue),
        (buildRowDict cols row)[i]? = some kv →
        (normalizeRow cols row)[i]? =
          some (kv.1, if isJsonPrimitive kv.2 then kv.2
                      else SqlValue.vStr (valueRep kv.2)))
    ∧ ∀ kv ∈ normalizeRow cols row, isJsonPrimitive kv.2 = true := by
  constructor
  · intro i kv h
    unfold normalizeRow
    rw [List.getElem?_map, h]
    simp [coerceValue_eq_ite]
  · intro kv h
    unfold normalizeRow at h
    rcases List.mem_map.1 h with ⟨p, _, rfl⟩
    exact isJsonPrimitive_coerceValue p.2

/-- A concrete row for the C7 witness: one column whose value is a
non-primitive driver object (e.g. a date) with str() rendering 2024-01-01. -/
def rowW7 : DriverRow :=
  { mappingView := some [("a", SqlValue.vOther "2024-01-01")]
    byName := fun _ => none
    positional := []
    accessRaises := false }

theorem claim_C7_witness :
    (normalizeRow ["a"] rowW7)[0]? = some ("a", SqlValue.vStr "2024-01-01")
    ∧ ∀ kv ∈ normalizeRow ["a"] rowW7, isJsonPrimitive kv.2 = true := by
  refine ⟨?_, (claim_C7 ["a"] rowW7).2⟩
  have h := (claim_C7 ["a"] rowW7).1 0 ("a", SqlValue.vOther "2024-01-01") rfl
  simpa using h

/-- The C8 row: it exposes only positional values, no mapping view and no
lookup by column name. -/
def rowC8 : DriverRow :=
  { mappingView := none
    byName := fun _ => none
    positional := [SqlValue.vInt 1, SqlValue.vStr "a", SqlValue.vNull]
    accessRaises := false }

/-- C8: a row exposing only positional values 1, a, null under columns
id, name, note normalizes to exactly the record
id maps to 1, name maps to a, note maps to null. -/
theorem claim_C8 :
    normalizeRow ["id", "name", "note"] rowC8 =
      [("id", SqlValue.vInt 1), ("name", SqlValue.vStr "a"),
       ("note", SqlValue.vNull)] := by
  rfl

/-- A tool parameter as it arrives at runtime: an integer, a string, or
Python's None.  Used for the parameters _invoke converts with int(). -/
inductive PyScalar where
  | pInt (n : Int)
  | pStr (s : String)
  | pNone
deriving DecidableEq, Repr

/-- Python's str.strip(): drop leading and trailing whitespace. -/
def pyStrip (s : String) : String :=
  String.mk
    (((s.data.dropWhile Char.isWhitespace).reverse.dropWhile
        Char.isWhitespace).reverse)

/-- Python's str.upper(), character by character. -/
def pyUpper (s : String) : String :=
  String.mk (s.data.map Char.toUpper)

/-- Python's str.startswith(). -/
def pyStartsWith (s pre : String) : Bool :=
  List.isPrefixOf pre.data s.data

/-- The value of a run of decimal digits. -/
def digitsVal (l : List Char) : Nat :=
  l.foldl (fun acc c => acc * 10 + (c.toNat - Char.toNat '0')) 0

/-- Python's int() applied to a string: an optional sign followed by at
least one decimal digit (ValueError otherwise). -/
def pyStrToInt (s : String) : Option Int :=
  match s.data with
  | [] => none
  | '-' :: rest =>
    if rest ≠ [] ∧ rest.all Char.isDigit then
      some (-(digitsVal rest : Int))
    else none
  | '+' :: rest =>
    if rest ≠ [] ∧ rest.all Char.isDigit then
      some ((digitsVal rest : Int))
    else none
  | l =>
    if l.all Char.isDigit then some ((digitsVal l : Int)) else none

/-- Python's int() applied to a parameter value: identity on integers,
decimal parsing on strings (ValueError on failure), TypeError on None. -/
def pyToInt : PyScalar → Option Int
  | .pInt n => some n
  | .pStr s => pyStrToInt s
  | .pNone => none

/-- Python's str() as used by the f-string that builds the cache key. -/
def pyScalarRep : PyScalar → String
  | .pInt n => toString n
  | .pStr s => s
  | .pNone => "None"

/-- _get_connection_key: the f-string host:port:user:database. -/
def getConnectionKey (host : String) (port : PyScalar)
    (user database : String) : String :=
  host ++ ":" ++ pyScalarRep port ++ ":" ++ user ++ ":" ++ database

/-- A SQLAlchemy Engine as configured by _get_engine: the model records the
connection parameters the URL was created from.  The pool settings
(pool_size 5, max_overflow 10, pool_timeout 30, pool_recycle 3600 and the
connect/read timeouts) are fixed constants in the code and carry no
information, so they are not part of the state. -/
structure Engine where
  host : String
  port : Int
  user : String
  password : String
  database : String
deriving DecidableEq, Repr

/-- The global ENGINE_CACHE, modelled as an association list from key
strings to engines. -/
abbrev Cache := List (String × Engine)

/-- Membership plus retrieval in ENGINE_CACHE (key in ENGINE_CACHE and
ENGINE_CACHE[key]). -/
def cacheLookup : Cache → String → Option Engine
  | [], _ => none
  | (k, e) :: rest, key => if k = key then some e else cacheLookup rest key

/-- _get_engine: build the key, look it up, and only on a miss build the URL
(this is where int(port) can raise, modelled as the error case) and insert a
fresh engine.  The returned cache is the updated ENGINE_CACHE. -/
def getEngine (cache : Cache) (host : String) (port : PyScalar)
    (user password database : String) : Except String (Engine × Cache) :=
  match cacheLookup cache (getConnectionKey host port user database) with
  | some e => .ok (e, cache)
  | none =>
    match pyToInt port with
    | none => .error "int() argument is not a valid integer"
    | some p =>
      .ok (⟨host, p, user, password, database⟩,
           (getConnectionKey host port user database,
            (⟨host, p, user, password, database⟩ : Engine)) :: cache)

theorem cacheLookup_cons_self (c : Cache) (k : String) (e : Engine) :
    cacheLookup ((k, e) :: c) k = some e := by
  simp [cacheLookup]

/-- C3: a second request with the same host, port, user and database but any
password finds the engine the first request created: it gets the same engine
back, the cache is unchanged, at most one entry was added in total, and
(starting from an empty cache) the shared engine holds the first request's
password. -/
theorem claim_C3 (c0 : Cache) (host : String) (port : PyScalar)
    (user pw1 pw2 database : String) (e1 : Engine) (c1 : Cache)
    (h1 : getEngine c0 host port user pw1 database = .ok (e1, c1)) :
    getEngine c1 host port user pw2 database = .ok (e1, c1)
    ∧ c1.length ≤ c0.length + 1
    ∧ (c0 = [] → e1.password = pw1) := by
  cases hl : cacheLookup c0 (getConnectionKey host port user database) with
  | some e =>
    simp only [getEngine, hl, Except.ok.injEq, Prod.mk.injEq] at h1
    obtain ⟨rfl, rfl⟩ := h1
    refine ⟨by simp only [getEngine, hl], Nat.le_succ_of_le le_rfl, ?_⟩
    rintro rfl
    simp [cacheLookup] at hl
  | none =>
    cases hp : pyToInt port with
    | none =>
      simp only [getEngine, hl, hp] at h1
      exact Except.noConfusion h1
    | some p =>
      simp only [getEngine, hl, hp, Except.ok.injEq, Prod.mk.injEq] at h1
      obtain ⟨rfl, rfl⟩ := h1
      refine ⟨?_, by simp, fun _ => rfl⟩
      simp only [getEngine, cacheLookup_cons_self]

/-- The engine the C3 witness creates on the first request. -/
def engW3 : Engine := ⟨"h", 3306, "u", "pw1", "d"⟩

theorem claim_C3_witness :
    getEngine [("h:3306:u:d", engW3)] "h" (PyScalar.pInt 3306) "u" "pw2" "d" =
      .ok (engW3, [("h:3306:u:d", engW3)])
    ∧ [("h:3306:u:d", engW3)].length ≤ ([] : Cache).length + 1
    ∧ (([] : Cache) = [] → engW3.password = "pw1") :=
  claim_C3 [] "h" (PyScalar.pInt 3306) "u" "pw1" "pw2" "d" engW3
    [("h:3306:u:d", engW3)] rfl

/-- C6 counterexample: an empty host is not malformed for _get_engine (the
call succeeds and caches an engine with host empty), and a non-numeric port
is not rejected before the cache lookup: when the key is already cached, the
lookup succeeds and the port is never converted. -/
def engBadPort : Engine := ⟨"h", 0, "u", "pw", "db"⟩

theorem claim_C6_counterexample :
    getEngine [] "" (PyScalar.pInt 3306) "u" "pw" "db" =
      .ok (⟨"", 3306, "u", "pw", "db"⟩,
           [(":3306:u:db", ⟨"", 3306, "u", "pw", "db"⟩)])
    ∧ getEngine [("h:boom:u:db", engBadPort)] "h" (PyScalar.pStr "boom")
        "u" "pw" "db" = .ok (engBadPort, [("h:boom:u:db", engBadPort)]) := by
  constructor <;> rfl

/-- Whether a _get_engine call raised (the exception branch of the callers'
try blocks). -/
def isEngineError : Except String (Engine × Cache) → Bool
  | .error _ => true
  | .ok _ => false

/-- C6 amended: _get_engine fails exactly when the key is not yet cached and
the port is not convertible by int(); an empty host is never rejected, and a
cache hit bypasses the port conversion entirely. -/
theorem claim_C6 (cache : Cache) (host : String) (port : PyScalar)
    (user password database : String) :
    isEngineError (getEngine cache host port user password database) = true ↔
      (cacheLookup cache (getConnectionKey host port user database) = none
       ∧ pyToInt port = none) := by
  cases hl : cacheLookup cache (getConnectionKey host port user database) with
  | some e => simp [getEngine, hl, isEngineError]
  | none =>
    cases hp : pyToInt port with
    | none => simp [getEngine, hl, hp, isEngineError]
    | some p => simp [getEngine, hl, hp, isEngineError]

/-- Containment of one character sequence in another, modelling Python's
substring test (needle in hay). -/
def containsSeq (needle : List Char) : List Char → Bool
  | [] => needle.isEmpty
  | c :: rest => List.isPrefixOf needle (c :: rest) || containsSeq needle rest

/-- The strategy test at line 144: SQL_CALC_FOUND_ROWS in query.upper(). -/
def containsDirective (q : String) : Bool :=
  containsSeq "SQL_CALC_FOUND_ROWS".data (pyUpper q).data

/-- _is_select_query: query.strip().upper().startswith(SELECT). -/
def isSelectQuery (q : String) : Bool :=
  pyStartsWith (pyUpper (pyStrip q)) "SELECT"

/-- The count statement of the two-query strategy (line 147). -/
def mkCountQuery (q : String) : String :=
  "SELECT COUNT(1) FROM (" ++ q ++ ") AS total_count"

/-- The paginated statement (lines 158 and 167). -/
def mkPaginatedQuery (q : String) (pagesize offset : Int) : String :=
  q ++ " LIMIT " ++ toString pagesize ++ " OFFSET " ++ toString offset

/-- The dedicated count-retrieval statement of the single-pass strategy
(line 176). -/
def foundRowsQuery : String := "SELECT FOUND_ROWS()"

/-- What a successfully executed statement hands back, seen through the
accesses _invoke performs: scalar() for count results, keys() when the
result exposes column names (none models hasattr(result, 'keys') being
false), and the iterated rows. -/
structure QueryResult where
  scalarValue : Option Int
  columns : Option (List String)
  rows : List DriverRow

/-- The database as the executor sees it: each statement text either yields
a result or fails with an error string (the (str(e), False) return of
_execute_query). -/
abbrev Db := String → Except String QueryResult

/-- The tool parameters after extraction with .get() and its defaults
(lines 105-112).  port, page and pagesize arrive untyped and are modelled
as PyScalar. -/
structure ToolParams where
  host : String
  port : PyScalar
  user : String
  password : String
  database : String
  query : String
  page : PyScalar
  pagesize : PyScalar

/-- The observable outcome of one _invoke call: which message was yielded,
abstracted to its kind plus the data it carries. -/
inductive InvokeOutcome where
  | emptyQueryError
  | paginationError
  | engineError (msg : String)
  | notSelectError
  | countQueryError (msg : String)
  | pageQueryError (msg : String)
  | foundRowsError (msg : String)
  | success (data : List (List (String × SqlValue))) (total : Int)
      (page pagesize : Int)
deriving DecidableEq, Repr

/-- The result-set processing of lines 186-224: when the result exposes
keys(), normalize every row against them; otherwise the rows list stays
empty. -/
def processRows (res : QueryResult) : List (List (String × SqlValue)) :=
  match res.columns with
  | none => []
  | some cols => res.rows.map (normalizeRow cols)

/-- The body of _invoke after parameter validation (lines 129-244), given
the already clamped page and pagesize.  Returns the outcome, the list of
SQL statements issued in order, and the updated ENGINE_CACHE. -/
def runQuery (cache : Cache) (db : Db) (p : ToolParams)
    (page pagesize : Int) : InvokeOutcome × List String × Cache :=
  match getEngine cache p.host p.port p.user p.password p.database with
  | .error msg => (.engineError msg, [], cache)
  | .ok (_, cache') =>
    if isSelectQuery p.query = false then (.notSelectError, [], cache')
    else if containsDirective p.query = false then
      match db (mkCountQuery p.query) with
      | .error e => (.countQueryError e, [mkCountQuery p.query], cache')
      | .ok cres =>
        match db (mkPaginatedQuery p.query pagesize ((page - 1) * pagesize)) with
        | .error e =>
          (.pageQueryError e,
           [mkCountQuery p.query,
            mkPaginatedQuery p.query pagesize ((page - 1) * pagesize)], cache')
        | .ok res =>
          (.success (processRows res) (cres.scalarValue.getD 0) page pagesize,
           [mkCountQuery p.query,
            mkPaginatedQuery p.query pagesize ((page - 1) * pagesize)], cache')
    else
      match db (mkPaginatedQuery p.query pagesize ((page - 1) * pagesize)) with
      | .error e =>
        (.pageQueryError e,
         [mkPaginatedQuery p.query pagesize ((page - 1) * pagesize)], cache')
      | .ok res =>
        match db foundRowsQuery with
        | .error e =>
          (.foundRowsError e,
           [mkPaginatedQuery p.query pagesize ((page - 1) * pagesize),
            foundRowsQuery], cache')
        | .ok cres =>
          (.success (processRows res) (cres.scalarValue.getD 0) page pagesize,
           [mkPaginatedQuery p.query pagesize ((page - 1) * pagesize),
            foundRowsQuery], cache')

/-- _invoke: reject an empty or whitespace-only query, convert and clamp the
pagination parameters (int(page), int(pagesize); conversion failure is the
ValueError/TypeError branch), then run the body. -/
def invoke (cache : Cache) (db : Db) (p : ToolParams) :
    InvokeOutcome × List String × Cache :=
  if pyStrip p.query = "" then (.emptyQueryError, [], cache)
  else
    match pyToInt p.page, pyToInt p.pagesize with
    | some pg, some ps =>
      runQuery cache db p (max 1 pg) (max 1 (min 100 ps))
    | _, _ => (.paginationError, [], cache)

/-- The engine the C9 counexample's first identity creates. -/
def engW9 : Engine := ⟨"h", 3306, "u:a", "pw1", "db"⟩

/-- C9: the key function is not injective: user u:a with database db and
user u with database a:db collide on the same key, and the second identity
then shares the engine cached for the first one. -/
theorem claim_C9 :
    getConnectionKey "h" (PyScalar.pInt 3306) "u:a" "db" =
      getConnectionKey "h" (PyScalar.pInt 3306) "u" "a:db"
    ∧ (("u:a", "db") ≠ (("u", "a:db") : String × String))
    ∧ getEngine [] "h" (PyScalar.pInt 3306) "u:a" "pw1" "db" =
        .ok (engW9, [("h:3306:u:a:db", engW9)])
    ∧ getEngine [("h:3306:u:a:db", engW9)] "h" (PyScalar.pInt 3306)
        "u" "pw2" "a:db" = .ok (engW9, [("h:3306:u:a:db", engW9)]) := by
  refine ⟨rfl, by decide, rfl, rfl⟩

/-- C1: on a valid request without the directive, exactly the count statement
and then the paginated statement are issued, the count scalar becomes total
and the page rows become data. -/
theorem claim_C1 (cache : Cache) (db : Db) (p : ToolParams) (pg ps : Int)
    (e : Engine) (cache' : Cache) (cres res : QueryResult)
    (hq : ¬ pyStrip p.query = "")
    (hpg : pyToInt p.page = some pg) (hps : pyToInt p.pagesize = some ps)
    (heng : getEngine cache p.host p.port p.user p.password p.database =
      .ok (e, cache'))
    (hsel : isSelectQuery p.query = true)
    (hdir : containsDirective p.query = false)
    (hcount : db (mkCountQuery p.query) = .ok cres)
    (hpage : db (mkPaginatedQuery p.query (max 1 (min 100 ps))
      ((max 1 pg - 1) * max 1 (min 100 ps))) = .ok res) :
    invoke cache db p =
      (.success (processRows res) (cres.scalarValue.getD 0)
         (max 1 pg) (max 1 (min 100 ps)),
       [mkCountQuery p.query,
        mkPaginatedQuery p.query (max 1 (min 100 ps))
          ((max 1 pg - 1) * max 1 (min 100 ps))],
       cache') := by
  simp [invoke, runQuery, if_neg hq, hpg, hps, heng, hsel, hdir, hcount, hpage]

/-- C2: on a valid request with the directive, exactly the paginated
statement and then the FOUND_ROWS statement are issued, in that order, with
no COUNT subquery. -/
theorem claim_C2 (cache : Cache) (db : Db) (p : ToolParams) (pg ps : Int)
    (e : Engine) (cache' : Cache) (cres res : QueryResult)
    (hq : ¬ pyStrip p.query = "")
    (hpg : pyToInt p.page = some pg) (hps : pyToInt p.pagesize = some ps)
    (heng : getEngine cache p.host p.port p.user p.password p.database =
      .ok (e, cache'))
    (hsel : isSelectQuery p.query = true)
    (hdir : containsDirective p.query = true)
    (hpage : db (mkPaginatedQuery p.query (max 1 (min 100 ps))
      ((max 1 pg - 1) * max 1 (min 100 ps))) = .ok res)
    (hfound : db foundRowsQuery = .ok cres) :
    invoke cache db p =
      (.success (processRows res) (cres.scalarValue.getD 0)
         (max 1 pg) (max 1 (min 100 ps)),
       [mkPaginatedQuery p.query (max 1 (min 100 ps))
          ((max 1 pg - 1) * max 1 (min 100 ps)),
        foundRowsQuery],
       cache') := by
  simp [invoke, runQuery, if_neg hq, hpg, hps, heng, hsel, hdir, hpage, hfound]

/-- C4: with a non-empty query, non-numeric pagination parameters yield the
validation error with no statement issued and an unchanged cache, while
numeric ones make the executor proceed with page clamped to at least 1 and
pagesize clamped into 1..100. -/
theorem claim_C4 (cache : Cache) (db : Db) (p : ToolParams)
    (hq : ¬ pyStrip p.query = "") :
    ((pyToInt p.page = none ∨ pyToInt p.pagesize = none) →
        invoke cache db p = (.paginationError, [], cache))
    ∧ ∀ (pg ps : Int), pyToInt p.page = some pg → pyToInt p.pagesize = some ps →
        invoke cache db p = runQuery cache db p (max 1 pg) (max 1 (min 100 ps))
        ∧ 1 ≤ max 1 pg ∧ 1 ≤ max 1 (min 100 ps) ∧ max 1 (min 100 ps) ≤ 100 := by
  constructor
  · intro h
    cases hpg : pyToInt p.page with
    | none => simp [invoke, if_neg hq, hpg]
    | some pg =>
      cases hps : pyToInt p.pagesize with
      | none => simp [invoke, if_neg hq, hpg, hps]
      | some ps =>
        rcases h with h | h
        · rw [hpg] at h; cases h
        · rw [hps] at h; cases h
  · intro pg ps hpg hps
    refine ⟨by simp [invoke, if_neg hq, hpg, hps], le_max_left _ _,
      le_max_left _ _, max_le (by norm_num) (min_le_left _ _)⟩

/-- C5: a request whose query does not pass the SELECT-prefix check never
issues a single SQL statement, and on the normal path (non-empty query,
numeric pagination, engine obtained) it is answered with exactly the
not-a-SELECT validation error. -/
theorem claim_C5 (cache : Cache) (db : Db) (p : ToolParams)
    (hns : isSelectQuery p.query = false) :
    (invoke cache db p).2.1 = []
    ∧ ∀ (pg ps : Int) (e : Engine) (cache' : Cache),
        ¬ pyStrip p.query = "" → pyToInt p.page = some pg →
        pyToInt p.pagesize = some ps →
        getEngine cache p.host p.port p.user p.password p.database =
          .ok (e, cache') →
        invoke cache db p = (.notSelectError, [], cache') := by
  constructor
  · by_cases hq : pyStrip p.query = ""
    · simp [invoke, hq]
    · cases hpg : pyToInt p.page with
      | none => simp [invoke, if_neg hq, hpg]
      | some pg =>
        cases hps : pyToInt p.pagesize with
        | none => simp [invoke, if_neg hq, hpg, hps]
        | some ps =>
          cases heng : getEngine cache p.host p.port p.user p.password
              p.database with
          | error msg => simp [invoke, runQuery, if_neg hq, hpg, hps, heng]
          | ok pr =>
            simp [invoke, runQuery, if_neg hq, hpg, hps, heng, hns]
  · intro pg ps e cache' hq hpg hps heng
    simp [invoke, runQuery, if_neg hq, hpg, hps, heng, hns]

/-- C10: a request with a usable port whose identity is not yet cached
creates and caches the engine before the SELECT-prefix check runs, so even a
request rejected as non-SELECT leaves the new registry entry behind. -/
theorem claim_C10 (cache : Cache) (db : Db) (p : ToolParams) (pg ps prt : Int)
    (hq : ¬ pyStrip p.query = "")
    (hpg : pyToInt p.page = some pg) (hps : pyToInt p.pagesize = some ps)
    (hport : pyToInt p.port = some prt)
    (hmiss : cacheLookup cache (getConnectionKey p.host p.port p.user
      p.database) = none)
    (hns : isSelectQuery p.query = false) :
    invoke cache db p =
      (.notSelectError, [],
       (getConnectionKey p.host p.port p.user p.database,
        (⟨p.host, prt, p.user, p.password, p.database⟩ : Engine)) :: cache)
    ∧ cacheLookup
        ((getConnectionKey p.host p.port p.user p.database,
          (⟨p.host, prt, p.user, p.password, p.database⟩ : Engine)) :: cache)
        (getConnectionKey p.host p.port p.user p.database) =
      some ⟨p.host, prt, p.user, p.password, p.database⟩ := by
  refine ⟨?_, cacheLookup_cons_self _ _ _⟩
  simp [invoke, runQuery, getEngine, if_neg hq, hpg, hps, hport, hmiss, hns]

/-- The count result the executor witnesses see: scalar 5. -/
def qrCount5 : QueryResult :=
  { scalarValue := some 5, columns := none, rows := [] }

/-- The page result the executor witnesses see: one id column, one row. -/
def qrPageOne : QueryResult :=
  { scalarValue := none, columns := some ["id"], rows := [rowC8] }

/-- The engine the executor witnesses end up caching. -/
def engW : Engine := ⟨"h", 3306, "u", "pw", "d"⟩

/-- Concrete parameters for the C1 witness. -/
def pW1 : ToolParams :=
  { host := "h", port := .pInt 3306, user := "u", password := "pw"
    database := "d", query := "SELECT id FROM t"
    page := .pInt 1, pagesize := .pInt 10 }

/-- A database answering exactly the two statements of the C1 scenario. -/
def dbW1 : Db := fun s =>
  if s = mkCountQuery "SELECT id FROM t" then .ok qrCount5
  else if s = mkPaginatedQuery "SELECT id FROM t" 10 0 then .ok qrPageOne
  else .error "unexpected statement"

theorem claim_C1_witness :
    invoke [] dbW1 pW1 =
      (.success [[("id", SqlValue.vInt 1)]] 5 1 10,
       ["SELECT COUNT(1) FROM (SELECT id FROM t) AS total_count",
        "SELECT id FROM t LIMIT 10 OFFSET 0"],
       [("h:3306:u:d", engW)]) := by
  have h := claim_C1 [] dbW1 pW1 1 10 engW [("h:3306:u:d", engW)]
    qrCount5 qrPageOne (by decide) rfl rfl rfl rfl rfl rfl rfl
  simpa using h

/-- Concrete parameters for the C2 witness: the query carries the
directive. -/
def pW2 : ToolParams :=
  { host := "h", port := .pInt 3306, user := "u", password := "pw"
    database := "d", query := "SELECT SQL_CALC_FOUND_ROWS id FROM t"
    page := .pInt 1, pagesize := .pInt 10 }

/-- A database answering exactly the two statements of the C2 scenario. -/
def dbW2 : Db := fun s =>
  if s = mkPaginatedQuery "SELECT SQL_CALC_FOUND_ROWS id FROM t" 10 0 then
    .ok qrPageOne
  else if s = foundRowsQuery then .ok qrCount5
  else .error "unexpected statement"

theorem claim_C2_witness :
    invoke [] dbW2 pW2 =
      (.success [[("id", SqlValue.vInt 1)]] 5 1 10,
       ["SELECT SQL_CALC_FOUND_ROWS id FROM t LIMIT 10 OFFSET 0",
        "SELECT FOUND_ROWS()"],
       [("h:3306:u:d", engW)]) := by
  have h := claim_C2 [] dbW2 pW2 1 10 engW [("h:3306:u:d", engW)]
    qrCount5 qrPageOne (by decide) rfl rfl rfl rfl rfl rfl rfl
  simpa using h

/-- Concrete parameters for the C4 witness: a non-numeric page value. -/
def pW4 : ToolParams :=
  { host := "h", port := .pInt 3306, user := "u", password := "pw"
    database := "d", query := "SELECT id FROM t"
    page := .pStr "abc", pagesize := .pInt 10 }

theorem claim_C4_witness :
    invoke [] dbW1 pW4 = (.paginationError, [], []) :=
  (claim_C4 [] dbW1 pW4 (by decide)).1 (Or.inl rfl)

/-- Concrete parameters for the C5 and C10 witnesses: a DELETE statement. -/
def pW5 : ToolParams :=
  { host := "h", port := .pInt 3306, user := "u", password := "pw"
    database := "d", query := "DELETE FROM t"
    page := .pInt 1, pagesize := .pInt 10 }

theorem claim_C5_witness :
    (invoke [] dbW1 pW5).2.1 = []
    ∧ invoke [] dbW1 pW5 = (.notSelectError, [], [("h:3306:u:d", engW)]) :=
  ⟨(claim_C5 [] dbW1 pW5 rfl).1,
   (claim_C5 [] dbW1 pW5 rfl).2 1 10 engW [("h:3306:u:d", engW)]
     (by decide) rfl rfl rfl⟩

theorem claim_C10_witness :
    invoke [] dbW1 pW5 = (.notSelectError, [], [("h:3306:u:d", engW)])
    ∧ cacheLookup [("h:3306:u:d", engW)] "h:3306:u:d" = some engW := by
  have h := claim_C10 [] dbW1 pW5 1 10 3306 (by decide) rfl rfl rfl rfl rfl
  simpa using h
